import Mathlib

/-!
Shallow embedding of the Tkinter AI GUI home view
(`src/app/views/home_view.py`, class `HomeView`) for checking the
natural-language specification against the code.

Modelling conventions:
* The Tk widget tree is reduced to the fields the view actually reads or
  writes: the selected file path, the decoded preview image, the text
  widget's content and sizing, the task selector's state string, the run
  button's state and label, the output panel (as a list of widgets), the
  preview box, the status bar, the last-error slot, and the list of
  dispatches sent to the model controller.
* Python truthiness of `self.selected_file` (a string or `None`) is
  `pyTruthyStr`; a PIL image object is always truthy, so truthiness of
  `self.preview_image` is `Option.isSome`.
* `tk.Text.get("1.0", "end")` returns the widget content followed by a
  trailing newline; `textGet` models this.  Text content is a `List Char`.
* Filesystem and dialog interactions are passed as parameters: the path
  returned by the file dialog (`""` on cancel, as `askopenfilename`
  returns), the on-disk size `os.path.getsize` would report, and the
  result of `PIL.Image.open` (`none` models the call raising).
-/

/-- A PIL image value: either decoded from a file, or created by
`Image.new("RGB", (w, h), color=(r, g, b))`. -/
inductive Img where
  | fromFile (path : String)
  | newRGB (w h : Nat) (r g b : Nat)
deriving DecidableEq, Repr

/-- The argument passed to `controller.run_image_caption`: in
`run_task`, `image_input = self.selected_file if self.selected_file else
self.preview_image`, so it is either a file path or a decoded image. -/
inductive ImageInput where
  | path (p : String)
  | image (i : Img)
deriving DecidableEq, Repr

/-- A request dispatched to the model controller. -/
inductive Dispatch where
  | imageCaption (input : ImageInput)
  | sentiment (text : List Char)
deriving DecidableEq, Repr

/-- A widget packed into the output panel (`self.output_frame`).  The
loading frame (label "Processing..." plus indeterminate progress bar) is
one widget; inline error messages and rendered results are labels. -/
inductive Widget where
  | loading
  | errorLabel (msg : String)
  | resultLabel (msg : String)
deriving DecidableEq, Repr

/-- The preview box (`self.preview_box`) shows either an image thumbnail
(`configure(image=..., text="")`) or plain text (`configure(text=...)`). -/
inductive PreviewBox where
  | thumb (img : Img)
  | label (s : String)
deriving DecidableEq, Repr

/-- The responsive layout chosen by `_on_resize`: single-column stacked
(`compact`) or three-column side-by-side. -/
inductive Layout where
  | stacked
  | threeColumn
deriving DecidableEq, Repr

/-- Modelled state of a `HomeView` instance (plus the two fields of the
owning app it touches: status bar and `last_error`). -/
structure HomeView where
  selected_file   : Option String
  preview_image   : Option Img
  running         : Bool
  task_var        : String
  lang_var        : String
  text_content    : List Char
  task_menu_state : String
  run_btn_state   : String
  run_btn_text    : String
  task_prev_state : List (String × Option String)
  output          : List Widget
  preview_box     : PreviewBox
  visible_input   : String
  text_width      : Nat
  text_height     : Nat
  last_error      : Option String
  status_msg      : String
  status_running  : Bool
  dispatches      : List Dispatch
  layout          : Layout
deriving DecidableEq, Repr

/-- Python truthiness of an optional string (`None` and `""` are falsy). -/
def pyTruthyStr : Option String → Bool
  | none => false
  | some s => !s.isEmpty

/-- Python `str.strip()` on a character list: drop whitespace from both
ends. -/
def pyStrip (l : List Char) : List Char :=
  ((l.dropWhile Char.isWhitespace).reverse.dropWhile Char.isWhitespace).reverse

/-- Model of `self.text_input.get("1.0", "end")`: Tk reports the widget
content followed by a trailing newline. -/
def textGet (s : HomeView) : List Char :=
  s.text_content ++ ['\n']

/-- The placeholder string set in `__init__`:
`"Type or paste text here — up to 3000 characters"`. -/
def placeholderChars : List Char :=
  "Type or paste text here — up to 3000 characters".data

/-- Python `str.lower()` on the characters of a string (the paths and
labels involved are ASCII, where `Char.toLower` agrees with Python). -/
def lowerChars (p : String) : List Char :=
  p.data.map Char.toLower

/-- Model of `task_label.lower().startswith("image")` used by `run_task`
and `_toggle_inputs` to decide the task kind. -/
def taskIsImage (label : String) : Bool :=
  "image".data.isPrefixOf (lowerChars label)

/-- Model of `path.lower().endswith((".png", ".jpg", ".jpeg", ".bmp"))`
in `_validate_image`: the extension allow-list check. -/
def extAllowed (path : String) : Bool :=
  ".png".data.isSuffixOf (lowerChars path) ||
  ".jpg".data.isSuffixOf (lowerChars path) ||
  ".jpeg".data.isSuffixOf (lowerChars path) ||
  ".bmp".data.isSuffixOf (lowerChars path)

/-- Translation of `HomeView._enforce_char_limit` (bound to KeyRelease):
strip the widget text, and when the stripped text exceeds 3000
characters, clear the widget and re-insert the first 3000 characters. -/
def enforce_char_limit (s : HomeView) : HomeView :=
  let text := pyStrip (textGet s)
  if text.length > 3000 then
    { s with text_content := text.take 3000 }
  else
    s

/-- Translation of `HomeView.paste_clipboard` with the clipboard content
as a parameter: when the clipboard text is nonempty, clear the widget and
insert the first 3000 characters (`txt[:3000]`). -/
def paste_clipboard (s : HomeView) (clip : List Char) : HomeView :=
  if clip.isEmpty then s
  else { s with text_content := clip.take 3000 }

/-- Translation of `HomeView._set_preview`: thumbnail the image into the
preview box (`configure(image=..., text="")`). -/
def set_preview (s : HomeView) (pil : Img) : HomeView :=
  { s with preview_box := PreviewBox.thumb pil }

/-- Modelled from the spec: `MainApp.set_status` is called by the view
(`self.app.set_status(...)`) but its definition is not among the provided
source files.  Per the spec, `setStatus(message, running)` "updates a
single-line status label and toggles an indeterminate/determinate
progress indicator" and is idempotent, so it is modelled as setting the
two status fields. -/
def set_status (s : HomeView) (msg : String) (running : Bool) : HomeView :=
  { s with status_msg := msg, status_running := running }

/-- One iteration of the restore loop in `HomeView._reset_run_state`:
for a snapshot entry, restore the named widget's state (`None` captured
means `configure(state="normal")`).  Of the four attribute names probed
by `run_task`, only `task_menu` exists on the view, so entries under any
other name find no widget (`getattr` yields `None`) and do nothing. -/
def restore_entry (st : HomeView) (entry : String × Option String) : HomeView :=
  if entry.1 = "task_menu" then
    match entry.2 with
    | none => { st with task_menu_state := "normal" }
    | some prev => { st with task_menu_state := prev }
  else st

/-- Translation of `HomeView._reset_run_state`: clear the running flag,
restore the task selector from the captured snapshot when one was taken
(a Python empty dict is falsy, so an empty snapshot skips the restore),
clear the snapshot, re-enable and relabel the run button, and report a
ready status via `app.set_status("Ready", running=False)`. -/
def reset_run_state (s : HomeView) : HomeView :=
  let s := { s with running := false }
  let s :=
    if s.task_prev_state.isEmpty then s
    else
      let s := s.task_prev_state.foldl restore_entry s
      { s with task_prev_state := [] }
  set_status { s with run_btn_state := "normal", run_btn_text := "Run" }
    "Ready" false

/-- Modelled from the spec: `HomeView._handle_error` is referenced
throughout the view but its definition is not among the provided source
files.  Per the spec, input-validation and controller errors are
"reported to the user via an inline message and the shared last error
field", and after a local rejection "running remains false, run control
remains enabled", so the handler records the error, renders an inline
error label in the output panel, and invokes the reset routine
`_reset_run_state` (which is in the sources). -/
def handle_error (s : HomeView) (msg : String) : HomeView :=
  reset_run_state
    { s with last_error := some msg,
             output := s.output ++ [Widget.errorLabel msg] }

/-- Translation of `HomeView._validate_image` with the on-disk size as a
parameter: reject a path whose lowercased form does not end in one of
`.png`, `.jpg`, `.jpeg`, `.bmp`; reject a file larger than
`25 * 1024 * 1024` bytes; otherwise valid.  Returns the resulting state
(the error handler mutates it) and the boolean result. -/
def validate_image (s : HomeView) (path : String) (size : Nat) :
    HomeView × Bool :=
  if !extAllowed path then
    (handle_error s "Invalid file format. Use PNG, JPG, JPEG, or BMP.", false)
  else if size > 25 * 1024 * 1024 then
    (handle_error s "File too large. Maximum size is 25 MB.", false)
  else
    (s, true)

/-- Translation of `HomeView.choose_file` with the dialog result, the
on-disk size, and the decoding outcome as parameters.  `askopenfilename`
returns `""` on cancel, which fails the `if f and ...` truthiness check.
On a valid path the file is recorded first; if `Image.open` then raises
(`decoded = none`), the error handler runs and the preview box shows the
raw path as text. -/
def choose_file (s : HomeView) (f : String) (size : Nat)
    (decoded : Option Img) : HomeView :=
  if f.isEmpty then s
  else
    let vr := validate_image s f size
    if vr.2 then
      let s1 := { vr.1 with selected_file := some f }
      match decoded with
      | some pil => set_preview { s1 with preview_image := some pil } pil
      | none =>
        let s2 := handle_error s1 "Invalid image file"
        { s2 with preview_box := PreviewBox.label f }
    else vr.1

/-- The path `os.path.join(os.getcwd(), "assets", "sample.jpg")` used by
`use_sample_image` (the working directory is modelled as the repository
root). -/
def samplePath : String := "assets/sample.jpg"

/-- The fallback placeholder created by `use_sample_image`:
`Image.new("RGB", (320, 240), color=(220, 230, 240))`. -/
def placeholderImg : Img := Img.newRGB 320 240 220 230 240

/-- Translation of `HomeView.use_sample_image` with the existence check
and the decoding outcome as parameters: when `assets/sample.jpg` exists
and opens, it becomes both the preview image and the selected file;
otherwise a generated 320×240 RGB placeholder becomes the preview and
the selected file is cleared. -/
def use_sample_image (s : HomeView) (sampleExists : Bool)
    (decoded : Option Img) : HomeView :=
  if sampleExists then
    match decoded with
    | some pil =>
        set_preview { s with preview_image := some pil,
                             selected_file := some samplePath } pil
    | none =>
        set_preview { s with preview_image := some placeholderImg,
                             selected_file := none } placeholderImg
  else
    set_preview { s with preview_image := some placeholderImg,
                         selected_file := none } placeholderImg

/-- Translation of `HomeView._toggle_inputs`: show the input frame for
the selected task kind and resize the shared text widget (`width=0,
height=0` resets it to auto-size for the image task; `width=40,
height=4` for sentiment). -/
def toggle_inputs (s : HomeView) : HomeView :=
  if taskIsImage s.task_var then
    { s with visible_input := "image", text_width := 0, text_height := 0 }
  else
    { s with visible_input := "text", text_width := 40, text_height := 4 }

/-- Translation of `HomeView._on_resize` with the width reported by
`winfo_width()` as a parameter.  The source computes
`w = self.winfo_width() or 1000`, so a reported width of `0` is replaced
by `1000`; `compact = w < 900` selects the stacked layout, otherwise the
three-column layout. -/
def on_resize (s : HomeView) (width : Nat) : HomeView :=
  let w := if width = 0 then 1000 else width
  if w < 900 then { s with layout := Layout.stacked }
  else { s with layout := Layout.threeColumn }

/-- Translation of `HomeView.run_task`.  The method first overwrites
`self._task_prev_state` with the current selector state and disables the
selector (of the probed names `task_select`, `task_cb`, `task_menu`,
`task_option`, only `task_menu` exists on the view; `cget("state")` on a
Combobox does not raise), and only then checks the `running` guard.  On
the non-running path it clears the output panel, inserts the loading
frame, marks the view running (status "Running…", run button disabled
and relabelled), and dispatches by task kind; the local input checks
call the error handler and destroy the loading frame.  The calls to
`_border_btn_effect` and `_update_info_panel` touch only button styling
and the informational side panels, which are outside the modelled state. -/
def run_task (s : HomeView) : HomeView :=
  let s := { s with task_prev_state := [("task_menu", some s.task_menu_state)],
                    task_menu_state := "disabled" }
  if s.running then s
  else
    let task : String := if taskIsImage s.task_var then "image" else "sentiment"
    let s := set_status
      { s with output := [Widget.loading], running := true }
      "Running…" true
    let s := { s with run_btn_state := "disabled", run_btn_text := "Running…" }
    if task = "image" then
      if !(pyTruthyStr s.selected_file || s.preview_image.isSome) then
        let s := handle_error s "No image selected"
        { s with output := s.output.erase Widget.loading }
      else
        let input : ImageInput :=
          if pyTruthyStr s.selected_file then
            ImageInput.path (s.selected_file.getD "")
          else
            match s.preview_image with
            | some img => ImageInput.image img
            | none => ImageInput.path ""
        { s with dispatches := s.dispatches ++ [Dispatch.imageCaption input] }
    else
      let txt := pyStrip (textGet s)
      if txt.isEmpty || txt = placeholderChars then
        let s := handle_error s "No text entered"
        { s with output := s.output.erase Widget.loading }
      else
        let txt :=
          if s.lang_var ≠ "Auto-detect" then
            txt ++ (" (in " ++ s.lang_var ++ ")").data
          else txt
        { s with dispatches := s.dispatches ++ [Dispatch.sentiment txt] }

/-- The view state right after `__init__` and `_build_ui`: no file or
preview selected, not running, task "Image to Text" (so the image input
frame is visible and the text widget is auto-sized), language
"Auto-detect", placeholder text in the text widget, selector readonly,
run button enabled and labelled "Run", empty output, textual preview
box, status "Ready", nothing dispatched. -/
def initView : HomeView where
  selected_file   := none
  preview_image   := none
  running         := false
  task_var        := "Image to Text"
  lang_var        := "Auto-detect"
  text_content    := placeholderChars
  task_menu_state := "readonly"
  run_btn_state   := "normal"
  run_btn_text    := "Run"
  task_prev_state := []
  output          := []
  preview_box     := PreviewBox.label "320×240 preview"
  visible_input   := "image"
  text_width      := 0
  text_height     := 0
  last_error      := none
  status_msg      := "Ready"
  status_running  := false
  dispatches      := []
  layout          := Layout.threeColumn

/-- The view state right after the first click of "Run" from the initial
view with a chosen image file: a run is in progress (`running = true`)
and the pre-run selector state `"readonly"` is held in the snapshot. -/
def runningView : HomeView :=
  run_task { initView with selected_file := some "a.png" }

/-- A view whose text widget holds 3001 space characters (raw content
longer than the 3000-character cap, but stripping to the empty text). -/
def paddedView : HomeView :=
  { initView with text_content := List.replicate 3001 ' ' }

/-- A view whose text widget holds 3001 letters (stripped text longer
than the 3000-character cap). -/
def longView : HomeView :=
  { initView with text_content := List.replicate 3001 'a' }

/-- A view currently in the stacked (compact) layout. -/
def narrowView : HomeView := { initView with layout := Layout.stacked }

/-- Restoring one snapshot entry changes at most the task selector's
state string. -/
theorem restore_entry_shape (s : HomeView) (e : String × Option String) :
    ∃ m, restore_entry s e = { s with task_menu_state := m } := by
  unfold restore_entry
  by_cases h : e.1 = "task_menu"
  · simp only [h, if_true]
    cases e.2 with
    | none => exact ⟨"normal", rfl⟩
    | some prev => exact ⟨prev, rfl⟩
  · simp only [h, if_false]
    exact ⟨s.task_menu_state, rfl⟩

/-- The whole restore loop changes at most the task selector's state
string. -/
theorem foldl_restore_shape (l : List (String × Option String)) :
    ∀ s : HomeView, ∃ m,
      l.foldl restore_entry s = { s with task_menu_state := m } := by
  induction l with
  | nil => intro s; exact ⟨s.task_menu_state, rfl⟩
  | cons e t ih =>
    intro s
    obtain ⟨m1, h1⟩ := restore_entry_shape s e
    obtain ⟨m2, h2⟩ := ih (restore_entry s e)
    exact ⟨m2, by rw [List.foldl_cons, h2, h1]⟩

/-- The reset routine only touches the running flag, the snapshot, the
task selector state, the run button, and the status bar. -/
theorem reset_run_state_shape (s : HomeView) :
    ∃ m, reset_run_state s =
      { s with running := false, task_prev_state := [],
               task_menu_state := m,
               run_btn_state := "normal", run_btn_text := "Run",
               status_msg := "Ready", status_running := false } := by
  unfold reset_run_state set_status
  by_cases h : s.task_prev_state.isEmpty
  · have hnil : s.task_prev_state = [] := by
      simpa [List.isEmpty_iff] using h
    simp only [h, if_true]
    exact ⟨s.task_menu_state, by rw [hnil]⟩
  · simp only [h, if_false]
    obtain ⟨m, hm⟩ := foldl_restore_shape s.task_prev_state
      { s with running := false }
    exact ⟨m, by rw [hm]; rfl⟩

/-- Field-by-field consequences of `reset_run_state_shape`. -/
theorem reset_run_state_frame (s : HomeView) :
    (reset_run_state s).selected_file = s.selected_file ∧
    (reset_run_state s).preview_image = s.preview_image ∧
    (reset_run_state s).preview_box = s.preview_box ∧
    (reset_run_state s).text_content = s.text_content ∧
    (reset_run_state s).output = s.output ∧
    (reset_run_state s).last_error = s.last_error ∧
    (reset_run_state s).dispatches = s.dispatches ∧
    (reset_run_state s).task_var = s.task_var ∧
    (reset_run_state s).lang_var = s.lang_var ∧
    (reset_run_state s).running = false ∧
    (reset_run_state s).run_btn_state = "normal" ∧
    (reset_run_state s).run_btn_text = "Run" ∧
    (reset_run_state s).status_msg = "Ready" ∧
    (reset_run_state s).status_running = false ∧
    (reset_run_state s).task_prev_state = [] := by
  obtain ⟨m, hm⟩ := reset_run_state_shape s
  rw [hm]
  simp

/-- Resetting with an empty snapshot leaves the selector state alone. -/
theorem reset_tms_nil (s : HomeView) (h : s.task_prev_state = []) :
    (reset_run_state s).task_menu_state = s.task_menu_state := by
  unfold reset_run_state set_status
  simp [h]

/-- Resetting with the singleton snapshot `run_task` takes restores the
selector to the captured value. -/
theorem reset_tms_single (s : HomeView) (v : String)
    (h : s.task_prev_state = [("task_menu", some v)]) :
    (reset_run_state s).task_menu_state = v := by
  unfold reset_run_state set_status
  simp [h, restore_entry]

/-- Field-by-field effects of the error handler. -/
theorem handle_error_frame (s : HomeView) (msg : String) :
    (handle_error s msg).selected_file = s.selected_file ∧
    (handle_error s msg).preview_image = s.preview_image ∧
    (handle_error s msg).preview_box = s.preview_box ∧
    (handle_error s msg).text_content = s.text_content ∧
    (handle_error s msg).output = s.output ++ [Widget.errorLabel msg] ∧
    (handle_error s msg).last_error = some msg ∧
    (handle_error s msg).dispatches = s.dispatches ∧
    (handle_error s msg).task_var = s.task_var ∧
    (handle_error s msg).lang_var = s.lang_var ∧
    (handle_error s msg).running = false ∧
    (handle_error s msg).run_btn_state = "normal" ∧
    (handle_error s msg).run_btn_text = "Run" ∧
    (handle_error s msg).status_msg = "Ready" ∧
    (handle_error s msg).status_running = false ∧
    (handle_error s msg).task_prev_state = [] := by
  unfold handle_error
  have h := reset_run_state_frame
    { s with last_error := some msg,
             output := s.output ++ [Widget.errorLabel msg] }
  simpa using h

theorem he_selected_file (s : HomeView) (msg : String) :
    (handle_error s msg).selected_file = s.selected_file :=
  (handle_error_frame s msg).1

theorem he_preview_image (s : HomeView) (msg : String) :
    (handle_error s msg).preview_image = s.preview_image :=
  (handle_error_frame s msg).2.1

theorem he_preview_box (s : HomeView) (msg : String) :
    (handle_error s msg).preview_box = s.preview_box :=
  (handle_error_frame s msg).2.2.1

theorem he_text_content (s : HomeView) (msg : String) :
    (handle_error s msg).text_content = s.text_content :=
  (handle_error_frame s msg).2.2.2.1

theorem he_output (s : HomeView) (msg : String) :
    (handle_error s msg).output = s.output ++ [Widget.errorLabel msg] :=
  (handle_error_frame s msg).2.2.2.2.1

theorem he_last_error (s : HomeView) (msg : String) :
    (handle_error s msg).last_error = some msg :=
  (handle_error_frame s msg).2.2.2.2.2.1

theorem he_dispatches (s : HomeView) (msg : String) :
    (handle_error s msg).dispatches = s.dispatches :=
  (handle_error_frame s msg).2.2.2.2.2.2.1

theorem he_running (s : HomeView) (msg : String) :
    (handle_error s msg).running = false :=
  (handle_error_frame s msg).2.2.2.2.2.2.2.2.2.1

theorem he_run_btn_state (s : HomeView) (msg : String) :
    (handle_error s msg).run_btn_state = "normal" :=
  (handle_error_frame s msg).2.2.2.2.2.2.2.2.2.2.1

theorem he_task_prev (s : HomeView) (msg : String) :
    (handle_error s msg).task_prev_state = [] :=
  (handle_error_frame s msg).2.2.2.2.2.2.2.2.2.2.2.2.2.2

theorem he_tms_single (s : HomeView) (msg v : String)
    (h : s.task_prev_state = [("task_menu", some v)]) :
    (handle_error s msg).task_menu_state = v := by
  unfold handle_error
  apply reset_tms_single
  simpa using h

theorem rs_run_btn_state (s : HomeView) :
    (reset_run_state s).run_btn_state = "normal" :=
  (reset_run_state_frame s).2.2.2.2.2.2.2.2.2.2.1

theorem rs_run_btn_text (s : HomeView) :
    (reset_run_state s).run_btn_text = "Run" :=
  (reset_run_state_frame s).2.2.2.2.2.2.2.2.2.2.2.1

theorem rs_status_msg (s : HomeView) :
    (reset_run_state s).status_msg = "Ready" :=
  (reset_run_state_frame s).2.2.2.2.2.2.2.2.2.2.2.2.1

theorem rs_status_running (s : HomeView) :
    (reset_run_state s).status_running = false :=
  (reset_run_state_frame s).2.2.2.2.2.2.2.2.2.2.2.2.2.1

theorem rs_running (s : HomeView) :
    (reset_run_state s).running = false :=
  (reset_run_state_frame s).2.2.2.2.2.2.2.2.2.1

/-- Dropping a leading-whitespace predicate from a nonempty block of a
non-matching character drops nothing. -/
theorem dropWhile_replicate_pos (p : Char → Bool) (c : Char)
    (hc : p c = false) (n : Nat) (hn : 0 < n) (t : List Char) :
    List.dropWhile p (List.replicate n c ++ t) = List.replicate n c ++ t := by
  cases n with
  | zero => omega
  | succ m => simp [List.replicate_succ, List.dropWhile_cons, hc]

/-- Stripping the all-whitespace padded text yields the empty text. -/
theorem pyStrip_paddedView : pyStrip (textGet paddedView) = [] := by
  have hall : ∀ x ∈ List.replicate 3001 ' ' ++ ['\n'],
      Char.isWhitespace x := by
    intro x hx
    rcases List.mem_append.mp hx with h | h
    · rw [List.eq_of_mem_replicate h]; decide
    · simp only [List.mem_singleton] at h
      rw [h]; decide
  unfold pyStrip textGet
  rw [show paddedView.text_content = List.replicate 3001 ' ' from rfl]
  rw [List.dropWhile_eq_nil_iff.mpr hall]
  simp

/-- Stripping the 3001-letter text yields the 3001 letters themselves
(only the trailing Tk newline is removed). -/
theorem pyStrip_longView :
    pyStrip (textGet longView) = List.replicate 3001 'a' := by
  have hwa : Char.isWhitespace 'a' = false := by decide
  have hwn : Char.isWhitespace '\n' = true := by decide
  have h1 : List.dropWhile Char.isWhitespace
      (List.replicate 3001 'a' ++ ['\n']) =
      List.replicate 3001 'a' ++ ['\n'] :=
    dropWhile_replicate_pos _ _ hwa 3001 (by norm_num) _
  have h2 : List.dropWhile Char.isWhitespace (List.replicate 3001 'a') =
      List.replicate 3001 'a' := by
    have h := dropWhile_replicate_pos _ _ hwa 3001 (by norm_num)
      ([] : List Char)
    rwa [List.append_nil] at h
  unfold pyStrip textGet
  rw [show longView.text_content = List.replicate 3001 'a' from rfl]
  rw [h1, List.reverse_append]
  simp only [List.reverse_cons, List.reverse_nil, List.nil_append,
             List.reverse_replicate, List.singleton_append]
  rw [List.dropWhile_cons, hwn, if_pos rfl, h2, List.reverse_replicate]

/-- C1.  The claim says a second `run_task` while `running == true` is a
no-op with no observable state change.  Evaluating `run_task` at a state
mid-run (first click taken from the initial view with a selected file)
shows: no second dispatch, no duplicate loading indicator, and no change
to the selector's widget state — but the captured previous-state
snapshot `_task_prev_state` IS overwritten from `"readonly"` to
`"disabled"`, because the disable-and-remember block runs before the
`running` guard; a subsequent reset then restores the selector to
`"disabled"` instead of the true pre-run `"readonly"`. -/
theorem run_task_reentry_corrupts_snapshot :
    runningView.running = true ∧
    runningView.task_prev_state = [("task_menu", some "readonly")] ∧
    (run_task runningView).dispatches = runningView.dispatches ∧
    (run_task runningView).output = runningView.output ∧
    (run_task runningView).task_menu_state = runningView.task_menu_state ∧
    (run_task runningView).task_prev_state =
      [("task_menu", some "disabled")] ∧
    (run_task runningView).task_prev_state ≠ runningView.task_prev_state ∧
    (reset_run_state (run_task runningView)).task_menu_state = "disabled" ∧
    (reset_run_state runningView).task_menu_state = "readonly" := by decide

/-- C2.  If the selected task is the image task and neither a selected
file path nor a decoded preview image is present, `run_task` rejects the
run locally with the error "No image selected", the loading indicator
inserted just before the check is removed (the output panel holds only
the inline error), and afterwards the running flag is false and the run
control is enabled. -/
theorem run_task_image_no_input_rejected (s : HomeView)
    (hrun : s.running = false)
    (htask : taskIsImage s.task_var = true)
    (hfile : pyTruthyStr s.selected_file = false)
    (himg : s.preview_image = none) :
    (run_task s).last_error = some "No image selected" ∧
    (run_task s).output = [Widget.errorLabel "No image selected"] ∧
    Widget.loading ∉ (run_task s).output ∧
    (run_task s).running = false ∧
    (run_task s).run_btn_state = "normal" := by
  unfold run_task
  simp [hrun, htask, hfile, himg, he_last_error, he_output, he_running,
        he_run_btn_state, set_status]

theorem run_task_image_no_input_rejected_witness :
    (run_task initView).last_error = some "No image selected" :=
  (run_task_image_no_input_rejected initView rfl (by decide) rfl rfl).1

/-- C3.  For every run started by `run_task` from a non-running state,
the reset routine invoked on completion (success or controller error)
restores the task selector to exactly the state captured before the run
started — whatever string that was, not merely `"normal"` — re-enables
and relabels the run control to "Run", and reports a "Ready" status. -/
theorem run_then_reset_restores (s : HomeView) (hrun : s.running = false) :
    (reset_run_state (run_task s)).task_menu_state = s.task_menu_state ∧
    (reset_run_state (run_task s)).run_btn_state = "normal" ∧
    (reset_run_state (run_task s)).run_btn_text = "Run" ∧
    (reset_run_state (run_task s)).status_msg = "Ready" ∧
    (reset_run_state (run_task s)).status_running = false ∧
    (reset_run_state (run_task s)).running = false := by
  refine ⟨?_, rs_run_btn_state _, rs_run_btn_text _, rs_status_msg _,
          rs_status_running _, rs_running _⟩
  unfold run_task
  simp only [hrun, Bool.false_eq_true, if_false, set_status]
  repeat' split
  all_goals
    first
      | exact reset_tms_single _ _ rfl
      | (rw [reset_tms_nil _ (by simp [he_task_prev])]
         simpa using he_tms_single _ _ s.task_menu_state rfl)

theorem run_then_reset_restores_witness :
    (reset_run_state (run_task initView)).task_menu_state =
      initView.task_menu_state :=
  (run_then_reset_restores initView rfl).1

/-- C4 counterexample.  A text widget holding 3001 space characters is
longer than 3000 characters, yet the key-release handler leaves it
entirely unchanged (3001 characters retained, not 3000): the handler
strips whitespace before measuring, and the stripped text is empty. -/
theorem char_limit_padded_counterexample :
    3000 < paddedView.text_content.length ∧
    enforce_char_limit paddedView = paddedView ∧
    (enforce_char_limit paddedView).text_content.length = 3001 := by
  have hlen : paddedView.text_content.length = 3001 := by
    rw [show paddedView.text_content = List.replicate 3001 ' ' from rfl,
        List.length_replicate]
  have henf : enforce_char_limit paddedView = paddedView := by
    unfold enforce_char_limit
    rw [pyStrip_paddedView]
    have hc : ¬(([] : List Char).length > 3000) := by simp
    rw [if_neg hc]
  exact ⟨by omega, henf, by rw [henf, hlen]⟩

/-- C4 (amended).  For every text-field content whose
whitespace-stripped text is longer than 3000 characters, the key-release
handler retains exactly the first 3000 characters of the stripped text;
and pasting a nonempty clipboard inserts at most the first 3000
characters of the clipboard text. -/
theorem char_limit_truncates_stripped (s : HomeView)
    (h : 3000 < (pyStrip (textGet s)).length) :
    (enforce_char_limit s).text_content = (pyStrip (textGet s)).take 3000 ∧
    (enforce_char_limit s).text_content.length = 3000 ∧
    (∀ clip : List Char, clip.isEmpty = false →
      (paste_clipboard s clip).text_content = clip.take 3000 ∧
      (paste_clipboard s clip).text_content.length ≤ 3000) := by
  refine ⟨?_, ?_, ?_⟩
  · simp [enforce_char_limit, h]
  · simp [enforce_char_limit, h, List.length_take]
    omega
  · intro clip hclip
    refine ⟨?_, ?_⟩
    · simp [paste_clipboard, hclip]
    · simp [paste_clipboard, hclip, List.length_take]

theorem char_limit_truncates_stripped_witness :
    (enforce_char_limit longView).text_content.length = 3000 :=
  (char_limit_truncates_stripped longView
    (by rw [pyStrip_longView, List.length_replicate]; norm_num)).2.1

/-- C5.  For every file path whose extension is not in the allow-list
(.png, .jpg, .jpeg, .bmp), `_validate_image` reports an error and
returns invalid, and `choose_file` leaves the previously selected file
path, the previous preview image, and the preview box unchanged —
whatever the dialog result's size or decodability. -/
theorem validate_reject_bad_extension (s : HomeView) (f : String)
    (size : Nat) (decoded : Option Img) (hext : extAllowed f = false) :
    (validate_image s f size).2 = false ∧
    (validate_image s f size).1.last_error =
      some "Invalid file format. Use PNG, JPG, JPEG, or BMP." ∧
    (choose_file s f size decoded).selected_file = s.selected_file ∧
    (choose_file s f size decoded).preview_image = s.preview_image ∧
    (choose_file s f size decoded).preview_box = s.preview_box := by
  refine ⟨?_, ?_, ?_, ?_, ?_⟩ <;>
    by_cases hf : f.isEmpty <;>
      simp [validate_image, choose_file, hext, hf, he_last_error,
            he_selected_file, he_preview_image, he_preview_box]

theorem validate_reject_bad_extension_witness :
    (validate_image initView "photo.gif" 100).2 = false :=
  (validate_reject_bad_extension initView "photo.gif" 100 none
    (by decide)).1

/-- C6.  For every file path with an allowed extension whose on-disk
size is at most 25 MB (25*1024*1024 bytes, boundary included),
`_validate_image` returns valid and does not alter the view state. -/
theorem validate_accepts_allowed_within_cap (s : HomeView) (f : String)
    (size : Nat) (hext : extAllowed f = true)
    (hsize : size ≤ 25 * 1024 * 1024) :
    validate_image s f size = (s, true) := by
  simp [validate_image, hext, Nat.not_lt.mpr hsize]

theorem validate_accepts_allowed_within_cap_witness :
    validate_image initView "photo.png" (25 * 1024 * 1024) =
      (initView, true) :=
  validate_accepts_allowed_within_cap initView "photo.png"
    (25 * 1024 * 1024) (by decide) (by decide)

/-- C7.  Toggling the task kind from "image" to "sentiment" and back
restores the view exactly (in particular the entered text, the selected
file path, and the decoded preview image are unchanged), and a single
toggle changes at most which input panel is visible and the text
widget's sizing. -/
theorem toggle_round_trip_preserves_inputs (s : HomeView)
    (htask : s.task_var = "Image to Text")
    (hvis : s.visible_input = "image")
    (hw : s.text_width = 0) (hh : s.text_height = 0) :
    toggle_inputs { toggle_inputs { s with task_var := "Sentiment Analysis" }
                    with task_var := "Image to Text" } = s ∧
    (∀ t : HomeView, ∃ v w h,
      toggle_inputs t =
        { t with visible_input := v, text_width := w, text_height := h }) := by
  constructor
  · have h1 : taskIsImage "Sentiment Analysis" = false := by decide
    have h2 : taskIsImage "Image to Text" = true := by decide
    simp [toggle_inputs, h1, h2]
    cases s
    simp_all
  · intro t
    unfold toggle_inputs
    split
    · exact ⟨"image", 0, 0, rfl⟩
    · exact ⟨"text", 40, 4, rfl⟩

theorem toggle_round_trip_preserves_inputs_witness :
    toggle_inputs { toggle_inputs { initView with
                      task_var := "Sentiment Analysis" }
                    with task_var := "Image to Text" } = initView :=
  (toggle_round_trip_preserves_inputs initView rfl rfl rfl rfl).1

/-- C8 counterexample.  The claim says every width below the threshold
(900) yields the stacked layout, but a reported width of 0 — which
`winfo_width() or 1000` replaces with 1000 — yields the three-column
layout even though 0 < 900. -/
theorem on_resize_zero_width_counterexample :
    0 < 900 ∧ (on_resize narrowView 0).layout = Layout.threeColumn ∧
    (on_resize narrowView 0).layout ≠ Layout.stacked := by decide

/-- C8 (amended).  On every resize event the chosen layout is a pure
function of the reported width with fixed threshold 900 and no
hysteresis: every nonzero width below 900 yields the stacked layout,
every width at or above 900 yields the three-column layout, and a
reported width of 0 is substituted with 1000 (`winfo_width() or 1000`)
and therefore yields the three-column layout; the previous view state
never influences the outcome. -/
theorem on_resize_layout_of_width (s : HomeView) (w : Nat) (hw : w ≠ 0) :
    (w < 900 → (on_resize s w).layout = Layout.stacked) ∧
    (900 ≤ w → (on_resize s w).layout = Layout.threeColumn) ∧
    (on_resize s 0).layout = Layout.threeColumn ∧
    (∀ t : HomeView, (on_resize t w).layout = (on_resize s w).layout) := by
  refine ⟨?_, ?_, by simp [on_resize], ?_⟩
  · intro h
    simp [on_resize, hw, h]
  · intro h
    simp [on_resize, hw, Nat.not_lt.mpr h]
  · intro t
    by_cases h : w < 900 <;> simp [on_resize, hw, h]

theorem on_resize_layout_of_width_witness :
    (on_resize initView 500).layout = Layout.stacked :=
  (on_resize_layout_of_width initView 500 (by decide)).1 (by decide)

/-- C9.  For every nonempty file path that passes validation (allowed
extension, size at most 25 MB) but whose decoding raises, `choose_file`
still sets `selected_file` to the new path (the prior selection is
lost), keeps the previous `preview_image`, reports "Invalid image file",
and sets the preview box to display the raw path as text. -/
theorem choose_file_decode_failure_keeps_path (s : HomeView) (f : String)
    (size : Nat) (hne : f.isEmpty = false) (hext : extAllowed f = true)
    (hsize : size ≤ 25 * 1024 * 1024) :
    (choose_file s f size none).selected_file = some f ∧
    (choose_file s f size none).preview_image = s.preview_image ∧
    (choose_file s f size none).preview_box = PreviewBox.label f ∧
    (choose_file s f size none).last_error = some "Invalid image file" := by
  have hv : validate_image s f size = (s, true) := by
    simp [validate_image, hext, Nat.not_lt.mpr hsize]
  refine ⟨?_, ?_, ?_, ?_⟩ <;>
    simp [choose_file, hne, hv, he_selected_file, he_preview_image,
          he_last_error]

theorem choose_file_decode_failure_keeps_path_witness :
    (choose_file initView "photo.png" 100 none).selected_file =
      some "photo.png" :=
  (choose_file_decode_failure_keeps_path initView "photo.png" 100
    (by decide) (by decide) (by decide)).1

/-- C10.  Whenever the bundled sample image is missing or fails to open,
`use_sample_image` clears `selected_file` and sets the preview to the
generated 320×240 RGB placeholder; a subsequent image-task run then
dispatches `run_image_caption` with the decoded placeholder image, and
does not fail with "No image selected" (the last-error slot is
untouched). -/
theorem sample_fallback_run_dispatches (s : HomeView) (sampleExists : Bool)
    (decoded : Option Img) (hrun : s.running = false)
    (htask : taskIsImage s.task_var = true)
    (hfb : sampleExists = false ∨ decoded = none) :
    (use_sample_image s sampleExists decoded).selected_file = none ∧
    (use_sample_image s sampleExists decoded).preview_image =
      some placeholderImg ∧
    (run_task (use_sample_image s sampleExists decoded)).dispatches =
      s.dispatches ++
        [Dispatch.imageCaption (ImageInput.image placeholderImg)] ∧
    (run_task (use_sample_image s sampleExists decoded)).last_error =
      s.last_error := by
  have husi : use_sample_image s sampleExists decoded =
      set_preview { s with preview_image := some placeholderImg,
                           selected_file := none } placeholderImg := by
    rcases hfb with h | h
    · simp [use_sample_image, h]
    · cases sampleExists <;> simp [use_sample_image, h]
  rw [husi]
  refine ⟨rfl, rfl, ?_, ?_⟩ <;>
    simp [run_task, set_preview, set_status, hrun, htask, pyTruthyStr]

theorem sample_fallback_run_dispatches_witness :
    (run_task (use_sample_image initView false none)).dispatches =
      initView.dispatches ++
        [Dispatch.imageCaption (ImageInput.image placeholderImg)] :=
  (sample_fallback_run_dispatches initView false none rfl (by decide)
    (Or.inl rfl)).2.2.1
